import Mathlib

/-!
A verification development for the Quento backend (apps/api/app), a Python
FastAPI service.  The definitions below are a shallow embedding of the
service-layer code: enumerations mirror the model enums, pure Python
functions become Lean functions on `List Char` / `String` / `Int` / `ℚ`,
Python `re` patterns used by the intent detector are represented by the
exact string tests they perform (anchored prefix alternation, substring
alternation, end anchor), database rows become structures and queries
become list operations, the external LLM call is an `Except`-valued oracle
parameter, and fallible Python operations (attribute lookups on enums or
pydantic models, `from ... import name`) return `Except`.

Numeric conventions: Python floats appearing in the heuristics (0.2, 0.4,
0.5, 0.85, 0.9) are modelled as exact rationals; Python `//` on nonnegative
ints is `Int.fdiv`; `str.lower` / `re.IGNORECASE` are modelled by ASCII
lowercasing (every pattern involved is ASCII).
-/

/-! ## Model enumerations (apps/api/app/models) -/

/-- models/conversation.py `RingPhase`. -/
inductive RingPhase
  | CORE
  | DISCOVER
  | PLAN
  | EXECUTE
  | OPTIMIZE
deriving DecidableEq, Repr

/-- models/conversation.py `ConversationStatus`. -/
inductive ConversationStatus
  | ACTIVE
  | ARCHIVED
deriving DecidableEq, Repr

/-- models/conversation.py `MessageRole`. -/
inductive MessageRole
  | USER
  | ASSISTANT
  | SYSTEM
deriving DecidableEq, Repr

/-- services/ai_service.py `UserIntent` (all eight declared members). -/
inductive UserIntent
  | QUESTION
  | STATEMENT
  | REQUEST
  | CONCERN
  | AGREEMENT
  | DISAGREEMENT
  | CLARIFICATION
  | OFF_TOPIC
deriving DecidableEq, Repr

/-- models/analysis.py `AnalysisStatus`. -/
inductive AnalysisStatus
  | PENDING
  | PROCESSING
  | COMPLETED
  | FAILED
deriving DecidableEq, Repr

/-- models/strategy.py `StrategyStatus` (DRAFT/ACTIVE/COMPLETED/ARCHIVED —
note the service code references GENERATING/READY/FAILED, which are not
members). -/
inductive StrategyStatus
  | DRAFT
  | ACTIVE
  | COMPLETED
  | ARCHIVED
deriving DecidableEq, Repr

/-- models/strategy.py `Priority`. -/
inductive Priority
  | HIGH
  | MEDIUM
  | LOW
deriving DecidableEq, Repr

/-- models/strategy.py `Effort`: its only members are LOW, MEDIUM, HIGH. -/
inductive Effort
  | LOW
  | MEDIUM
  | HIGH
deriving DecidableEq, Repr

/-- `.value` of a `Priority` member (the Python enums are string-valued). -/
def Priority.value : Priority → String
  | .HIGH => "high"
  | .MEDIUM => "medium"
  | .LOW => "low"

/-! ## Python string primitives

Helpers for the handful of Python string operations the services use:
`str.lower`, `str.strip`, `str.split()`, substring membership (`in`), and
the specific `re` patterns of ai_service.py. -/

/-- ASCII lowercasing, modelling `str.lower` / `re.IGNORECASE` on the ASCII
strings the services match against. -/
def asciiLower (cs : List Char) : List Char := cs.map Char.toLower

/-- Python whitespace for `str.strip` / `str.split()` / regex `\s` (ASCII
range: space, tab, newline, carriage return, vertical tab, form feed). -/
def pyIsSpace (c : Char) : Bool :=
  c == ' ' || c == '\t' || c == '\n' || c == '\r' || c == '\x0b' || c == '\x0c'

/-- `str.strip()` with no arguments. -/
def pyStrip (cs : List Char) : List Char :=
  ((cs.dropWhile pyIsSpace).reverse.dropWhile pyIsSpace).reverse

/-- Does `hay` start with `needle` (character-exact)? -/
def startsWithL : List Char → List Char → Bool
  | _, [] => true
  | [], _ :: _ => false
  | h :: hs, n :: ns => h == n && startsWithL hs ns

/-- Python substring membership `needle in hay` (character-exact). -/
def containsSub : List Char → List Char → Bool
  | [], needle => needle.isEmpty
  | h :: t, needle => startsWithL (h :: t) needle || containsSub t needle

/-- Word count of `str.split()` with no arguments: the number of maximal
runs of non-whitespace characters. -/
def countWordsAux : List Char → Bool → Nat
  | [], _ => 0
  | c :: cs, inWord =>
    if pyIsSpace c then countWordsAux cs false
    else (if inWord then 0 else 1) + countWordsAux cs true

/-- `len(s.split())`. -/
def pyWordCount (s : String) : Nat := countWordsAux s.data false

/-- Python `re.search(r'c$', s)` for a literal character `c` (no MULTILINE):
a match at the very end of the string or just before one trailing newline. -/
def endsDollar (c : Char) (m : List Char) : Bool :=
  match m.reverse with
  | [] => false
  | x :: rest =>
    x == c || (x == '\n' && (match rest with
      | [] => false
      | y :: _ => y == c))

/-! ## Intent, sentiment and reference detection (services/ai_service.py)

Each Python regex used by `_detect_intent` / `_check_references_previous`
is one of three shapes, captured by `Pat`:
`^(a|b|…)` (anchored alternation of literals), a literal or `(a|b|…)`
alternation searched anywhere (substring membership), and `\?$`. -/

/-- The shapes of regex pattern ai_service.py matches with `re.search`. -/
inductive Pat
  | endAnchor (c : Char)
  | startAlt (alts : List String)
  | subAlt (alts : List String)

/-- `re.search(pattern, m)` for the pattern shapes of `Pat`; `m` is the
(already lowercased) message. -/
def patMatch (m : List Char) : Pat → Bool
  | .endAnchor c => endsDollar c m
  | .startAlt alts => alts.any (fun a => startsWithL m a.data)
  | .subAlt alts => alts.any (fun a => containsSub m a.data)

/-- Does any pattern of the family match (the `for pattern in …: if
re.search(pattern, message, re.IGNORECASE)` loops)? -/
def patsMatch (pats : List Pat) (message : String) : Bool :=
  pats.any (patMatch (asciiLower message.data))

/-- `_detect_intent`: question indicator patterns. -/
def question_patterns : List Pat :=
  [.endAnchor '?',
   .startAlt ["what", "how", "why", "when", "where", "who", "which", "can",
              "could", "would", "should", "is", "are", "do", "does"],
   .subAlt ["tell me"], .subAlt ["explain"], .subAlt ["help me understand"]]

/-- `_detect_intent`: request indicator patterns. -/
def request_patterns : List Pat :=
  [.subAlt ["can you", "could you", "please", "help me", "i need", "i want",
            "give me", "show me"],
   .subAlt ["recommend"], .subAlt ["suggest"], .subAlt ["create"],
   .subAlt ["make"], .subAlt ["build"]]

/-- `_detect_intent`: concern indicator patterns. -/
def concern_patterns : List Pat :=
  [.subAlt ["worried", "concerned", "afraid", "scared", "nervous", "unsure",
            "don't know", "struggling", "problem", "issue", "difficult", "hard"],
   .subAlt ["not working", "doesn't work", "failed", "failing"]]

/-- `_detect_intent`: agreement indicator patterns. -/
def agreement_patterns : List Pat :=
  [.startAlt ["yes", "yeah", "yep", "sure", "ok", "okay", "right", "exactly",
              "agreed", "absolutely", "definitely", "that's right", "sounds good"],
   .subAlt ["makes sense"], .subAlt ["i agree"], .subAlt ["you're right"]]

/-- `_detect_intent`: disagreement indicator patterns. -/
def disagreement_patterns : List Pat :=
  [.startAlt ["no", "nope", "not really", "i disagree", "that's not", "actually"],
   .subAlt ["but", "however", "although"], .subAlt ["don't think so"],
   .subAlt ["not sure about that"]]

/-- ai_service.py `_detect_intent`: the pattern families are checked in the
fixed order concern, disagreement, agreement, request, question; the first
family with a matching pattern wins, and `STATEMENT` is the default. -/
def _detect_intent (message : String) : UserIntent :=
  if patsMatch concern_patterns message then .CONCERN
  else if patsMatch disagreement_patterns message then .DISAGREEMENT
  else if patsMatch agreement_patterns message then .AGREEMENT
  else if patsMatch request_patterns message then .REQUEST
  else if patsMatch question_patterns message then .QUESTION
  else .STATEMENT

/-- `_detect_sentiment`: positive keyword list. -/
def positive_words : List String :=
  ["great", "good", "excellent", "amazing", "love", "happy", "excited",
   "wonderful", "fantastic", "perfect", "awesome", "glad", "pleased",
   "thrilled", "delighted", "success", "working", "progress"]

/-- `_detect_sentiment`: negative keyword list. -/
def negative_words : List String :=
  ["bad", "terrible", "awful", "hate", "frustrated", "angry", "worried",
   "concerned", "problem", "issue", "difficult", "hard", "failing",
   "struggle", "stuck", "confused", "overwhelmed", "stressed"]

/-- ai_service.py `_detect_sentiment`: count keyword hits (substring
membership) in each fixed list and compare the counts. -/
def _detect_sentiment (message : String) : String :=
  let ml := asciiLower message.data
  let pos_count := (positive_words.filter (fun w => containsSub ml w.data)).length
  let neg_count := (negative_words.filter (fun w => containsSub ml w.data)).length
  if neg_count < pos_count then "positive"
  else if pos_count < neg_count then "negative"
  else "neutral"

/-- `_check_references_previous`: reference patterns. -/
def reference_patterns : List Pat :=
  [.subAlt ["you said", "you mentioned", "earlier", "before", "last time",
            "we talked about"],
   .subAlt ["that thing", "the thing", "what you", "as you", "like you"],
   .subAlt ["remember", "recall", "back to", "going back"]]

/-- ai_service.py `_check_references_previous`. -/
def _check_references_previous (message : String) : Bool :=
  patsMatch reference_patterns message

/-! ## Conversation data model (models/conversation.py)

The `Conversation` model declares the attributes listed in
`conversationModelAttrs` below — in particular no `business_context`,
although chat_service.py passes that keyword to the constructor and
ai_service.py reads that attribute.  The structure here carries a
`business_context` field holding the value the service code attempts to
store (an initial-context JSON object modelled as an opaque string), and
every access the services make to the attribute is guarded in the
definitions by the explicit attribute / constructor-keyword checks
(`getattrConversation`, `sqlalchemyCtorCheck`), which fail as the Python
does. -/

/-- A row of the `messages` table, as the services read it. -/
structure Msg where
  role : MessageRole
  content : String
  metadata : Option (List String)
  created_at : Nat
deriving DecidableEq, Repr

/-- A row of the `conversations` table, with its loaded `messages`
relationship (ordered; insertion order is chronological). -/
structure Conversation where
  id : Nat
  user_id : Nat
  title : String
  ring_phase : RingPhase
  status : ConversationStatus
  business_context : Option String
  messages : List Msg
  updated_at : Nat
deriving DecidableEq, Repr

/-! ## Ring-phase advancement heuristic (ai_service.py, `analyze_for_phase_advancement`) -/

/-- One entry of the per-phase `criteria` dict. -/
structure PhaseCriteria where
  min_exchanges : Nat
  key_signals : List String
  sufficient_coverage : Nat

/-- The `criteria` dict of `analyze_for_phase_advancement`, keyed by phase. -/
def criteria : RingPhase → PhaseCriteria
  | .CORE =>
    { min_exchanges := 4,
      key_signals := ["target audience", "ideal customer", "customers",
                      "different", "unique", "value", "problem we solve",
                      "mission", "vision", "goal"],
      sufficient_coverage := 3 }
  | .DISCOVER =>
    { min_exchanges := 3,
      key_signals := ["competitor", "opportunity", "quick win", "improve",
                      "channel", "marketing", "seo", "social"],
      sufficient_coverage := 2 }
  | .PLAN =>
    { min_exchanges := 3,
      key_signals := ["priority", "action", "timeline", "first",
                      "metric", "measure", "goal"],
      sufficient_coverage := 2 }
  | .EXECUTE =>
    { min_exchanges := 4,
      key_signals := ["done", "completed", "finished", "working on",
                      "progress", "started", "implemented"],
      sufficient_coverage := 2 }
  | .OPTIMIZE =>
    { min_exchanges := 3,
      key_signals := ["results", "learning", "adjust", "improve",
                      "working", "not working", "next"],
      sufficient_coverage := 2 }

/-- The `transition_signals` dict of `_detect_phase_transition_signal`. -/
def transition_signals : RingPhase → List String
  | .CORE => ["ready to discover", "discover some opportunities",
              "good foundation", "understand your business",
              "move forward", "next phase"]
  | .DISCOVER => ["build a plan", "create a strategy", "action plan",
                  "ready to plan", "let's prioritize"]
  | .PLAN => ["start executing", "take action", "let's do this",
              "first step", "ready to implement"]
  | .EXECUTE => ["review progress", "step back", "optimize",
                 "what's working", "refine our approach"]
  | .OPTIMIZE => ["new cycle", "deeper dive", "revisit",
                  "next level", "evolved strategy"]

/-- The `phase_order` list. -/
def phase_order : List RingPhase := [.CORE, .DISCOVER, .PLAN, .EXECUTE, .OPTIMIZE]

/-- ai_service.py `_detect_phase_transition_signal`: if any signal phrase
for the current phase occurs in the lowercased response, return the next
phase of `phase_order` (the source returns its `.value` string); for the
last phase the index guard fails and the loop falls through to `None`. -/
def _detect_phase_transition_signal (response : String) (current_phase : RingPhase) :
    Option RingPhase :=
  let response_lower := asciiLower response.data
  if (transition_signals current_phase).any (fun s => containsSub response_lower s.data) then
    let current_idx := phase_order.indexOf current_phase
    if current_idx < phase_order.length - 1 then phase_order.get? (current_idx + 1)
    else none
  else none

/-- The result dict of `analyze_for_phase_advancement`. -/
structure AdvancementResult where
  should_advance : Bool
  confidence : ℚ
  reason : String
deriving DecidableEq, Repr

/-- `exchange_count`: the number of USER-role messages of the conversation. -/
def exchange_count (messages : List Msg) : Nat :=
  (messages.filter (fun m => m.role == MessageRole.USER)).length

/-- `all_content`: `" ".join(lowercased message contents)` followed by
`" {user_message.lower()} {ai_response.lower()}"`. -/
def all_content (messages : List Msg) (user_message ai_response : String) : List Char :=
  List.intercalate " ".data (messages.map (fun m => asciiLower m.content.data))
    ++ " ".data ++ asciiLower user_message.data
    ++ " ".data ++ asciiLower ai_response.data

/-- `covered_signals`: how many of the phase's key signals occur in the
concatenated content. -/
def covered_signals (pc : PhaseCriteria) (content : List Char) : Nat :=
  (pc.key_signals.filter (fun s => containsSub content s.data)).length

/-- ai_service.py `analyze_for_phase_advancement`.  The unused
`analysis_context` parameter of the source is omitted.  Source floats are
exact rationals here (0.2 = 1/5, 0.4 = 2/5, 0.5 = 1/2, 0.85 = 17/20,
0.9 = 9/10).  The `criteria.get` miss branch ("Unknown phase") is
unreachable: `RingPhase` has exactly the five keyed phases. -/
def analyze_for_phase_advancement (conversation : Conversation)
    (latest_exchange : String × String) : AdvancementResult :=
  let ring_phase := conversation.ring_phase
  let messages := conversation.messages
  let user_message := latest_exchange.1
  let ai_response := latest_exchange.2
  let ec := exchange_count messages
  let pc := criteria ring_phase
  if ec < pc.min_exchanges then
    { should_advance := false, confidence := 1/5,
      reason := "Only " ++ toString ec ++ " exchanges, need "
        ++ toString pc.min_exchanges }
  else
    let content := all_content messages user_message ai_response
    let covered := covered_signals pc content
    if pc.sufficient_coverage ≤ covered then
      { should_advance := true,
        confidence := min (9/10)
          (1/2 + ((covered : ℚ) / (pc.key_signals.length : ℚ)) * (2/5)),
        reason := "Covered " ++ toString covered ++ " key topics in "
          ++ toString ec ++ " exchanges" }
    else if (_detect_phase_transition_signal ai_response ring_phase).isSome then
      { should_advance := true, confidence := 17/20,
        reason := "AI signaled readiness for next phase" }
    else
      { should_advance := false, confidence := 2/5,
        reason := "Only covered " ++ toString covered ++ "/"
          ++ toString pc.sufficient_coverage ++ " key topics" }

/-! ## AI response post-processing (ai_service.py) -/

/-- `(l.dropWhile p).length ≤ l.length`, used for termination of the
regex-substitution scanners below. -/
lemma length_dropWhile_le (p : Char → Bool) (l : List Char) :
    (l.dropWhile p).length ≤ l.length :=
  (List.dropWhile_sublist p).length_le

/-- The run of `'#'` characters at the head of the list. -/
def hashRun (cs : List Char) : Nat := (cs.takeWhile (fun c => c == '#')).length

/-- `re.sub(r'^\s*(SYSTEM|ASSISTANT|AI):\s*', '', response, flags=re.IGNORECASE)`:
anchored at the string start, so at most one substitution.  When the label
does not match, the response (leading whitespace included) is unchanged. -/
def stripLeadingLabel (response : List Char) : List Char :=
  let rest := response.dropWhile pyIsSpace
  let tryLbl := fun (lbl : List Char) =>
    if asciiLower (rest.take lbl.length) == lbl
        && (rest.drop lbl.length).head? == some ':' then
      some ((rest.drop (lbl.length + 1)).dropWhile pyIsSpace)
    else none
  match tryLbl "system".data with
  | some r => r
  | none =>
    match tryLbl "assistant".data with
    | some r => r
    | none =>
      match tryLbl "ai".data with
      | some r => r
      | none => response

/-- `re.sub(r'^#{1,3}\s+', '', response, flags=re.MULTILINE)` as a
left-to-right scan.  `atLS` records whether the position is a line start
(string start or right after a newline in the original string); a match
consumes one to three `'#'` (four or more never match) and the maximal
whitespace run after them, which may cross newlines. -/
def rmHdr (l : List Char) (atLS : Bool) : List Char :=
  match l with
  | [] => []
  | c :: cs =>
    if atLS ∧ 1 ≤ hashRun (c :: cs) ∧ hashRun (c :: cs) ≤ 3
        ∧ (((c :: cs).drop (hashRun (c :: cs))).head?.any pyIsSpace) then
      let after := (c :: cs).drop (hashRun (c :: cs))
      rmHdr (after.dropWhile pyIsSpace)
        ((after.takeWhile pyIsSpace).getLast? == some '\n')
    else c :: rmHdr cs (c == '\n')
termination_by l.length
decreasing_by
  · refine Nat.lt_of_le_of_lt (length_dropWhile_le _ _) ?_
    simp only [List.length_drop, List.length_cons]
    omega
  · simp

/-- `re.sub(r'\n{3,}', '\n\n', response)`: a maximal run of three or more
newlines becomes two. -/
def collapseNewlines (l : List Char) : List Char :=
  match l with
  | [] => []
  | c :: cs =>
    if c == '\n' && 2 ≤ (cs.takeWhile (fun x => x == '\n')).length then
      '\n' :: '\n' :: collapseNewlines (cs.dropWhile (fun x => x == '\n'))
    else c :: collapseNewlines cs
termination_by l.length
decreasing_by
  · refine Nat.lt_of_le_of_lt (length_dropWhile_le _ _) ?_
    simp only [List.length_cons]
    omega
  · simp

/-- ai_service.py `_clean_response`: strip a leaked role label, remove
markdown headers when more than three `'#'` occur, collapse three or more
consecutive newlines to two, and strip. -/
def _clean_response (response : List Char) : List Char :=
  let r1 := stripLeadingLabel response
  let r2 := if 3 < r1.count '#' then rmHdr r1 true else r1
  pyStrip (collapseNewlines r2)

/-- `re.search(r'\?[\s]*$', content)`: a question mark followed only by
whitespace up to the end of the string. -/
def qmarkThenWSEnd (cs : List Char) : Bool :=
  match cs.reverse.dropWhile pyIsSpace with
  | c :: _ => c == '?'
  | [] => false

/-- ai_service.py `_check_quality`. -/
def _check_quality (response : String) (user_intent : UserIntent)
    (user_sentiment : String) : List String :=
  let f1 : List String :=
    if response.length < 50 then ["response_too_short"]
    else if 1500 < response.length then ["response_too_long"]
    else []
  let f2 : List String :=
    if user_sentiment == "negative"
        && !(["understand", "hear you", "makes sense", "valid", "challenging",
              "difficult"].any
            (fun w => containsSub (asciiLower response.data) w.data)) then
      ["may_not_acknowledge_concern"]
    else []
  let f3 : List String :=
    if user_intent == .STATEMENT && !(response.data.contains '?') then
      ["no_follow_up_question"]
    else []
  f1 ++ f2 ++ f3

/-- The result dict of `postprocess_ai_response`.  The `action_items`
entry (`_extract_action_items`) is computed by the source but discarded by
`generate_response`, which returns only `content`; it is not embedded. -/
structure PostprocessResult where
  content : String
  has_question : Bool
  suggested_phase_transition : Option RingPhase
  quality_flags : List String

/-- ai_service.py `postprocess_ai_response`. -/
def postprocess_ai_response (response : String) (ring_phase : RingPhase)
    (user_intent : UserIntent) (user_sentiment : String) : PostprocessResult :=
  let content := _clean_response (pyStrip response.data)
  let has_question := qmarkThenWSEnd content
    || (["let me know", "tell me", "share", "what do you think"].any
        (fun w => containsSub (asciiLower content) w.data))
  { content := ⟨content⟩,
    has_question := has_question,
    suggested_phase_transition := _detect_phase_transition_signal ⟨content⟩ ring_phase,
    quality_flags := _check_quality ⟨content⟩ user_intent user_sentiment }

/-! ## Pre-processing (ai_service.py, `preprocess_user_message`) -/

/-- The result dict of `preprocess_user_message` (key topics are not
produced by the source either). -/
structure Preprocessing where
  original_message : String
  intent : UserIntent
  sentiment : String
  references_previous : Bool
  message_length : String
  enrichment_notes : List String

/-- ai_service.py `preprocess_user_message` (the conversation history and
ring phase parameters are unused by the source body). -/
def preprocess_user_message (message : String) (_conversation_history : List Msg)
    (_ring_phase : RingPhase) : Preprocessing :=
  let message_lower : String := ⟨pyStrip (asciiLower message.data)⟩
  let intent := _detect_intent message_lower
  let sentiment := _detect_sentiment message_lower
  let references_previous := _check_references_previous message_lower
  let word_count := pyWordCount message
  let message_length : String :=
    if word_count ≤ 5 then "short" else if word_count ≤ 30 then "medium" else "long"
  let notes :=
    (if message_length == "short" then
      ["User gave a brief response - may need to probe for more detail"] else [])
    ++ (if sentiment == "negative" then
      ["User may be expressing concern or frustration - acknowledge their feelings"] else [])
    ++ (if intent == .DISAGREEMENT then
      ["User is pushing back - validate their perspective before responding"] else [])
    ++ (if intent == .CONCERN then
      ["User is worried about something - address the concern directly"] else [])
    ++ (if references_previous then
      ["User is referencing earlier conversation - maintain continuity"] else [])
  { original_message := message, intent := intent, sentiment := sentiment,
    references_previous := references_previous, message_length := message_length,
    enrichment_notes := notes }

/-! ## AI response generation (ai_service.py, `AIService`) -/

/-- ai_service.py `AIService._get_fallback_response`: the five canned
phase-keyed sentences.  The source reads them from a dict with default
"How can I help you today?", which is unreachable: every `RingPhase` is a
key.  The `error` argument is accepted and ignored, as in the source. -/
def AIService._get_fallback_response (ring_phase : RingPhase) (_error : String) : String :=
  match ring_phase with
  | .CORE =>
    "I'd love to learn more about your business. What products or services do you offer, and who are your ideal customers?"
  | .DISCOVER =>
    "Based on what I've learned, I'm identifying opportunities for growth. What do you see as your biggest competitive advantage?"
  | .PLAN =>
    "Let's build a strategy together. What's your top priority for the next 90 days?"
  | .EXECUTE =>
    "Time to take action! Which of these recommendations would you like to tackle first?"
  | .OPTIMIZE =>
    "Let's review your progress. What results have you seen so far?"

/-- The attributes the `Conversation` model (models/conversation.py)
declares: its mapped columns and relationships.  There is no
`business_context`. -/
def conversationModelAttrs : List String :=
  ["id", "user_id", "title", "ring_phase", "status", "summary", "metadata",
   "created_at", "updated_at", "user", "messages"]

/-- Python attribute lookup on a `Conversation` instance: a name that is
not a declared attribute raises `AttributeError`. -/
def getattrConversation (name : String) : Except String Unit :=
  if conversationModelAttrs.contains name then Except.ok ()
  else Except.error ("Conversation object has no attribute " ++ name)

/-- Steps 5–6 of `AIService.generate_response`: the `try`-guarded external
`acompletion` call and the post-processing.  The call is the oracle value
`llmResult`: `Except.ok raw` is a completion whose content was extracted,
`Except.error e` is any exception raised by the model invocation.  On
error the phase-keyed fallback is returned; on success the post-processed
content. -/
def AIService.generate_response_body (conversation : Conversation) (user_message : String)
    (llmResult : Except String String) : String :=
  let preprocessing :=
    preprocess_user_message user_message conversation.messages conversation.ring_phase
  match llmResult with
  | .error e => AIService._get_fallback_response conversation.ring_phase e
  | .ok raw_response =>
    (postprocess_ai_response raw_response conversation.ring_phase
      preprocessing.intent preprocessing.sentiment).content

/-- ai_service.py `AIService.generate_response`.  Steps 1–3 (pre-processing,
analysis-context retrieval, RAG assembly) are pure and only shape the
prompt; step 4, `_build_messages`, evaluates `conversation.business_context`
(ai_service.py:965) *before* the `try` block, and the `Conversation` model
declares no such attribute, so every call raises `AttributeError` there —
the guarded model invocation and the fallback of
`AIService.generate_response_body` are unreachable, and the error
propagates to the caller (`Except.error`). -/
def AIService.generate_response (conversation : Conversation) (user_message : String)
    (llmResult : Except String String) : Except String String := do
  let _ ← getattrConversation "business_context"
  pure (AIService.generate_response_body conversation user_message llmResult)

/-- `generate_response` raises the `business_context` AttributeError for
every conversation, message and oracle value. -/
lemma generate_response_always_raises (conversation : Conversation) (u : String)
    (llmResult : Except String String) :
    AIService.generate_response conversation u llmResult
      = Except.error ("Conversation object has no attribute business_context") := rfl

/-! ## Typed exceptions (core/exceptions.py) -/

/-- The `QuentoException` subclasses, each carrying its message.
`notFoundError` maps to code NOT_FOUND / HTTP 404, `authorizationError`
to FORBIDDEN / 403. -/
inductive QuentoError
  | authenticationError (message : String)
  | authorizationError (message : String)
  | notFoundError (message : String)
  | validationError (message : String)
  | rateLimitError (message : String)
  | aiServiceError (message : String)
  | userAlreadyExistsError (message : String)
  | invalidTokenError (message : String)
deriving DecidableEq, Repr

/-! ## Chat service (services/chat_service.py) -/

/-- schemas/chat.py `ConversationCreate`: its only field is
`initial_context` (an optional JSON object, modelled as an opaque
string).  There is no `title` field. -/
structure ConversationCreate where
  initial_context : Option String
deriving DecidableEq, Repr

/-- The field names of the pydantic model `ConversationCreate`
(schemas/chat.py). -/
def conversationCreateFields : List String := ["initial_context"]

/-- Python attribute lookup on a `ConversationCreate` instance: accessing
a name that is not a declared field raises `AttributeError`. -/
def getattrConversationCreate (name : String) : Except String Unit :=
  if conversationCreateFields.contains name then Except.ok ()
  else Except.error ("ConversationCreate object has no attribute " ++ name)

/-- Python truthiness of an optional string (`None` and `""` are falsy). -/
def pyTruthyStr (s : Option String) : Bool :=
  match s with
  | none => false
  | some s => !s.isEmpty

/-- chat_service.py: welcome message content when an initial context was
given. -/
def welcome_with_context : String :=
  "I've reviewed your website analysis and I'm ready to dive deeper. Based on what I found, I have some questions to better understand your business and how we can improve your online presence. Let's start: What's the primary goal you want to achieve with your website?"

/-- chat_service.py: welcome message content without initial context. -/
def welcome_without_context : String :=
  "Welcome to Quento! I'm here to help you grow your business. To get started, I'd recommend analyzing your website first using the Discover tab - this gives me valuable context about your online presence. Or, tell me about your business and what you're hoping to achieve."

/-- The SQLAlchemy declarative constructor: every keyword must name a
declared (mapped) attribute of the class, otherwise it raises
`TypeError(k + " is an invalid keyword argument for " + cls)`. -/
def sqlalchemyCtorCheck (cls : String) (attrs kwargs : List String) :
    Except String Unit :=
  match kwargs.find? (fun k => !attrs.contains k) with
  | some k => Except.error (k ++ " is an invalid keyword argument for " ++ cls)
  | none => Except.ok ()

/-- The conversation row `create_conversation` intends to build, with the
welcome message appended: `ring_phase = CORE`, `status = ACTIVE`, one
ASSISTANT welcome message (`fresh_id` stands for the generated UUID,
`now` for `datetime.utcnow()`). -/
def create_conversation_record (user_id : Nat) (title : String)
    (business_context : Option String) (welcome_content : String)
    (fresh_id now : Nat) : Conversation :=
  { id := fresh_id, user_id := user_id, title := title,
    ring_phase := RingPhase.CORE, status := ConversationStatus.ACTIVE,
    business_context := business_context,
    messages := [{ role := MessageRole.ASSISTANT, content := welcome_content,
                   metadata := none, created_at := now }],
    updated_at := now }

/-- chat_service.py `ChatService.create_conversation`.  The Python body
starts with `if data and data.title:`; when `data` is not None this reads
the `title` attribute of `ConversationCreate`, which declares no such
field, so the lookup raises `AttributeError`.  The body then calls
`Conversation(user_id=…, title=…, ring_phase=…, status=…,
business_context=…)` unconditionally; the model declares no
`business_context` attribute, so on the remaining path (`data = None`)
the constructor raises `TypeError` — no conversation row and no welcome
message is ever created.  The intended row (`create_conversation_record`)
and the welcome choice stand below the failing steps, as in the source. -/
def ChatService.create_conversation (user_id : Nat) (data : Option ConversationCreate)
    (fresh_id now : Nat) : Except String Conversation := do
  let title : String ←
    match data with
    | some _ => do
      let _ ← getattrConversationCreate "title"
      pure "New Conversation"
    | none => pure "New Conversation"
  let _ ← sqlalchemyCtorCheck "Conversation" conversationModelAttrs
    ["user_id", "title", "ring_phase", "status", "business_context"]
  let business_context := data.bind (fun d => d.initial_context)
  let welcome_content :=
    if pyTruthyStr (data.bind (fun d => d.initial_context)) then welcome_with_context
    else welcome_without_context
  pure (create_conversation_record user_id title business_context welcome_content
    fresh_id now)

/-- chat_service.py `ChatService.get_conversation`: a single SELECT
filtered on both the conversation id and the caller's user id; a miss
raises `NotFoundError(f"Conversation {conversation_id} not found")`. -/
def ChatService.get_conversation (db : List Conversation)
    (conversation_id user_id : Nat) : Except QuentoError Conversation :=
  match db.find? (fun c => c.id == conversation_id && c.user_id == user_id) with
  | some c => Except.ok c
  | none => Except.error (QuentoError.notFoundError
      ("Conversation " ++ toString conversation_id ++ " not found"))

/-- chat_service.py `ChatService.add_message`: append the message row and
touch `updated_at`. -/
def ChatService.add_message (conversation : Conversation) (content : String)
    (role : MessageRole) (metadata : Option (List String)) (now : Nat) : Conversation :=
  { conversation with
      messages := conversation.messages
        ++ [{ role := role, content := content, metadata := metadata, created_at := now }],
      updated_at := now }

/-- The `session_update` dict of `SendMessageResponse` (the source sends
`conversation.ring_phase.value`; the phase itself is carried here). -/
structure SessionUpdate where
  ring_phase : RingPhase
  should_advance : Bool
  advancement_confidence : ℚ
  advancement_reason : String

/-- schemas/chat.py `SendMessageResponse`. -/
structure SendMessageResponse where
  user_message : Msg
  assistant_message : Msg
  session_update : SessionUpdate

/-- chat_service.py `ChatService.send_message`: store the user message
(committed by `add_message`), call `AIService.generate_response`
(`llmResult` is the external-completion oracle), and — when it returns —
store the assistant reply and run `analyze_for_phase_advancement` on the
conversation as re-fetched after the user insert (the session does not
expire on commit, so its loaded message list does not yet hold the
assistant row).  When `generate_response` raises (which, per
`generate_response_always_raises`, it always does as written), the
exception propagates out of `send_message` with the user message already
stored.  The advancement result is only reported in `session_update`; no
field of the conversation other than `messages`/`updated_at` is assigned
on any path.  The first component is the stored conversation state when
the operation finishes or raises. -/
def ChatService.send_message (conversation : Conversation) (content : String)
    (attachments : Option (List String)) (llmResult : Except String String)
    (now : Nat) : Conversation × Except String SendMessageResponse :=
  let metadata := match attachments with
    | some l => if l.isEmpty then none else some l
    | none => none
  let conv1 := ChatService.add_message conversation content MessageRole.USER metadata now
  match AIService.generate_response conv1 content llmResult with
  | .error e => (conv1, Except.error e)
  | .ok ai_response_content =>
    let conv2 :=
      ChatService.add_message conv1 ai_response_content MessageRole.ASSISTANT none now
    let advancement := analyze_for_phase_advancement conv1 (content, ai_response_content)
    (conv2,
     Except.ok
       { user_message := { role := MessageRole.USER, content := content,
                           metadata := metadata, created_at := now },
         assistant_message := { role := MessageRole.ASSISTANT,
                                content := ai_response_content,
                                metadata := none, created_at := now },
         session_update :=
           { ring_phase := conv1.ring_phase,
             should_advance := advancement.should_advance,
             advancement_confidence := advancement.confidence,
             advancement_reason := advancement.reason } })

/-- chat_service.py `ChatService.update_ring_phase`: the one operation
that assigns `conversation.ring_phase`. -/
def ChatService.update_ring_phase (conversation : Conversation)
    (new_phase : RingPhase) (now : Nat) : Conversation :=
  { conversation with ring_phase := new_phase, updated_at := now }

/-! ## Analysis worker (services/analysis_service.py) -/

/-- The dict `_fetch_website` returns (the parsed page features the
analyzers read). -/
structure WebsiteData where
  url : String
  title : Option String
  meta_description : Option String
  h1_tags : List String
  h2_tags : List String
  images : Nat
  images_with_alt : Nat
  links : Nat
  internal_links : Nat
  external_links : Nat
  has_viewport : Bool
  has_canonical : Bool
  word_count : Nat
deriving DecidableEq, Repr

/-- The dict `_analyze_content` returns. -/
structure ContentAnalysis where
  title : Option String
  meta_description : Option String
  word_count : Nat
  h1_count : Nat
  h2_count : Nat
  issues : List String
  recommendations : List String
deriving DecidableEq, Repr

/-- analysis_service.py `_analyze_content`: the four fixed rule groups, in
source order (title, meta description, headings, word count). -/
def _analyze_content (data : WebsiteData) : ContentAnalysis :=
  let titlePart : List String × List String :=
    if !pyTruthyStr data.title then
      (["Missing page title"], ["Add a descriptive page title"])
    else if (data.title.getD "").length < 30 then
      (["Page title too short"], ["Expand title to 50-60 characters"])
    else if 60 < (data.title.getD "").length then
      (["Page title too long"], ["Shorten title to under 60 characters"])
    else ([], [])
  let metaPart : List String × List String :=
    if !pyTruthyStr data.meta_description then
      (["Missing meta description"], ["Add a compelling meta description"])
    else if (data.meta_description.getD "").length < 120 then
      (["Meta description too short"], ["Expand meta description to 150-160 characters"])
    else ([], [])
  let headingPart : List String × List String :=
    if data.h1_tags.isEmpty then
      (["Missing H1 tag"], ["Add a single H1 tag with main keyword"])
    else if 1 < data.h1_tags.length then
      (["Multiple H1 tags found"], ["Use only one H1 tag per page"])
    else ([], [])
  let wordPart : List String × List String :=
    if data.word_count < 300 then
      (["Low word count"], ["Add more content (aim for 500+ words)"])
    else ([], [])
  { title := data.title, meta_description := data.meta_description,
    word_count := data.word_count,
    h1_count := data.h1_tags.length, h2_count := data.h2_tags.length,
    issues := titlePart.1 ++ metaPart.1 ++ headingPart.1 ++ wordPart.1,
    recommendations := titlePart.2 ++ metaPart.2 ++ headingPart.2 ++ wordPart.2 }

/-- The severity tags of SEO issues. -/
inductive Severity
  | high
  | medium
  | low
deriving DecidableEq, Repr

/-- One entry of the `issues` list `_analyze_seo` builds. -/
structure SEOIssue where
  severity : Severity
  issue : String
  recommendation : String
deriving DecidableEq, Repr

/-- The `image_optimization` sub-dict of `_analyze_seo`. -/
structure ImageOptimization where
  total : Nat
  with_alt : Nat
  score : ℚ
deriving DecidableEq, Repr

/-- The `link_structure` sub-dict of `_analyze_seo`. -/
structure LinkStructure where
  internal : Nat
  external : Nat
deriving DecidableEq, Repr

/-- The dict `_analyze_seo` returns. -/
structure SeoAnalysis where
  issues : List SEOIssue
  image_optimization : ImageOptimization
  mobile_ready : Bool
  has_canonical : Bool
  link_structure : LinkStructure
deriving DecidableEq, Repr

/-- analysis_service.py `_analyze_seo`: the four fixed rule checks in
source order (image alt text, viewport, canonical, internal links);
`mobile_ready` is the presence of the viewport meta tag. -/
def _analyze_seo (data : WebsiteData) : SeoAnalysis :=
  let i1 : List SEOIssue :=
    if 0 < data.images ∧ data.images_with_alt < data.images then
      [{ severity := Severity.medium,
         issue := toString (data.images - data.images_with_alt) ++ " images missing alt text",
         recommendation := "Add descriptive alt text to all images" }]
    else []
  let i2 : List SEOIssue :=
    if !data.has_viewport then
      [{ severity := Severity.high, issue := "Missing viewport meta tag",
         recommendation := "Add viewport meta tag for mobile responsiveness" }]
    else []
  let i3 : List SEOIssue :=
    if !data.has_canonical then
      [{ severity := Severity.low, issue := "Missing canonical URL",
         recommendation := "Add canonical URL to prevent duplicate content" }]
    else []
  let i4 : List SEOIssue :=
    if data.internal_links < 3 then
      [{ severity := Severity.medium, issue := "Few internal links",
         recommendation := "Add more internal links to improve navigation" }]
    else []
  { issues := i1 ++ i2 ++ i3 ++ i4,
    image_optimization :=
      { total := data.images, with_alt := data.images_with_alt,
        score := if 0 < data.images then
            (data.images_with_alt : ℚ) / (data.images : ℚ) * 100
          else 100 },
    mobile_ready := data.has_viewport,
    has_canonical := data.has_canonical,
    link_structure := { internal := data.internal_links, external := data.external_links } }

/-- schemas/analysis.py `Competitor`. -/
structure Competitor where
  name : String
  url : String
  strengths : List String
  seo_score : Nat
deriving DecidableEq, Repr

/-- analysis_service.py `_analyze_competitors` (hardcoded placeholder). -/
def _analyze_competitors (_data : WebsiteData) : List Competitor :=
  [{ name := "Competitor A", url := "https://competitor-a.com",
     strengths := ["Strong SEO", "Active blog"], seo_score := 78 },
   { name := "Competitor B", url := "https://competitor-b.com",
     strengths := ["Social media presence", "Fast website"], seo_score := 72 }]

/-- The dict `_analyze_social` returns (hardcoded placeholder). -/
structure SocialData where
  platforms_found : List String
  activity_level : String
  recommendations : List String
deriving DecidableEq, Repr

/-- analysis_service.py `_analyze_social`. -/
def _analyze_social (_data : WebsiteData) : SocialData :=
  { platforms_found := ["linkedin", "twitter"], activity_level := "moderate",
    recommendations := ["Increase posting frequency",
                        "Add social sharing buttons to website"] }

/-- The `scores` dict `_calculate_scores` returns (Python ints). -/
structure ScoresDict where
  seo : Int
  content : Int
  mobile : Int
  speed : Int
  social : Int
deriving DecidableEq, Repr

/-- The per-issue deduction of the SEO score loop: 20 for high, 10 for
medium, 5 for the `else` branch (low). -/
def severityPenalty : Severity → Int
  | .high => 20
  | .medium => 10
  | .low => 5

/-- analysis_service.py `_calculate_scores`. -/
def _calculate_scores (content : ContentAnalysis) (seo : SeoAnalysis)
    (social : Option SocialData) : ScoresDict :=
  let content_score : Int := max 0 (min 100 (100 - 15 * (content.issues.length : Int)))
  let seo_score : Int :=
    max 0 (min 100 (seo.issues.foldl (fun s i => s - severityPenalty i.severity) 100))
  { seo := seo_score,
    content := content_score,
    mobile := if seo.mobile_ready then 80 else 40,
    speed := 70,
    social := if social.isSome then 60 else 40 }

/-- analysis_service.py `_generate_quick_wins`. -/
def _generate_quick_wins (seo : SeoAnalysis) : List String :=
  let quick_wins := (seo.issues.filter
    (fun i => i.severity == Severity.high || i.severity == Severity.medium)).map
    (fun i => i.recommendation)
  (if quick_wins.isEmpty then
    ["Consider adding more internal links", "Optimize images for faster loading",
     "Add structured data markup"]
  else quick_wins).take 5

/-- The `results` JSON blob `_run_analysis` stores on completion. -/
structure AnalysisResults where
  overall_score : Int
  scores : ScoresDict
  content_analysis : ContentAnalysis
  seo_analysis : SeoAnalysis
  competitors : List Competitor
  social_presence : Option SocialData
  quick_wins : List String
deriving DecidableEq, Repr

/-- A row of the `analyses` table. -/
structure AnalysisRow where
  id : Nat
  user_id : Nat
  website_url : String
  status : AnalysisStatus
  progress : Nat
  include_competitors : Bool
  include_social : Bool
  results : Option AnalysisResults
  error_message : Option String
  completed_at : Option Nat
deriving DecidableEq, Repr

/-- analysis_service.py `AnalysisService.get_analysis`: a single SELECT
filtered on both the analysis id and the caller's user id; a miss raises
`NotFoundError(f"Analysis {analysis_id} not found")`. -/
def AnalysisService.get_analysis (db : List AnalysisRow)
    (analysis_id user_id : Nat) : Except QuentoError AnalysisRow :=
  match db.find? (fun a => a.id == analysis_id && a.user_id == user_id) with
  | some a => Except.ok a
  | none => Except.error (QuentoError.notFoundError
      ("Analysis " ++ toString analysis_id ++ " not found"))

/-- The top-level names db/database.py defines (its module namespace):
there is no `async_session_maker`; the session factory is named
`async_session_factory`. -/
def database_module_exports : List String :=
  ["GUID", "engine", "async_session_factory", "Base", "get_db", "init_db"]

/-- `from app.db.database import name`: an `ImportError` when the module
defines no such name. -/
def import_from_database (name : String) : Except String Unit :=
  if database_module_exports.contains name then Except.ok ()
  else Except.error ("cannot import name " ++ name ++ " from app.db.database")

/-- The body of `_run_analysis` from `async with async_session_maker()`
onward, assuming the import had succeeded: the row moves to PROCESSING,
the progress checkpoints are committed in order, and the run ends either
COMPLETED (progress 100, results stored, `completed_at` set) or — when the
fetch raises — FAILED with the exception text in `error_message`.  The
returned list is the sequence of committed `progress` values.  The
analyzers, score arithmetic and placeholder routines are pure and raise
nothing; the HTTP fetch is the failure point, modelled by `fetch_result`. -/
def _run_analysis_body (analysis : AnalysisRow)
    (fetch_result : Except String WebsiteData) (now : Nat) :
    AnalysisRow × List Nat :=
  let a1 := { analysis with status := AnalysisStatus.PROCESSING, progress := 10 }
  match fetch_result with
  | .error e =>
    ({ a1 with status := AnalysisStatus.FAILED, error_message := some e }, [10])
  | .ok website_data =>
    let content_analysis := _analyze_content website_data
    let seo_analysis := _analyze_seo website_data
    let competitors :=
      if analysis.include_competitors then _analyze_competitors website_data else []
    let social_presence :=
      if analysis.include_social then some (_analyze_social website_data) else none
    let scores := _calculate_scores content_analysis seo_analysis social_presence
    let quick_wins := _generate_quick_wins seo_analysis
    let overall_score :=
      Int.fdiv (scores.seo + scores.content + scores.mobile + scores.speed + scores.social) 5
    ({ a1 with
        status := AnalysisStatus.COMPLETED, progress := 100,
        results := some
          { overall_score := overall_score, scores := scores,
            content_analysis := content_analysis, seo_analysis := seo_analysis,
            competitors := competitors, social_presence := social_presence,
            quick_wins := quick_wins },
        completed_at := some now },
     [10, 20, 40, 60, 80, 90, 100])

/-- analysis_service.py `AnalysisService._run_analysis`: its first
statement is `from app.db.database import async_session_maker`, a name
db/database.py does not define, so the background task raises
`ImportError` before its `try` block opens; the row is never touched and
no progress is committed. -/
def _run_analysis (analysis : AnalysisRow)
    (fetch_result : Except String WebsiteData) (now : Nat) :
    AnalysisRow × List Nat :=
  match import_from_database "async_session_maker" with
  | .error _ => (analysis, [])
  | .ok _ => _run_analysis_body analysis fetch_result now

/-! ## Strategy service (services/strategy_service.py) -/

/-- A row of the `strategies` table (models/strategy.py). -/
structure StrategyRow where
  id : Nat
  user_id : Nat
  analysis_id : Option Nat
  title : String
  status : StrategyStatus
deriving DecidableEq, Repr

/-- strategy_service.py `StrategyService.get_strategy`: a single SELECT
filtered on both the strategy id and the caller's user id; a miss raises
`NotFoundError(f"Strategy {strategy_id} not found")`. -/
def StrategyService.get_strategy (db : List StrategyRow)
    (strategy_id user_id : Nat) : Except QuentoError StrategyRow :=
  match db.find? (fun s => s.id == strategy_id && s.user_id == user_id) with
  | some s => Except.ok s
  | none => Except.error (QuentoError.notFoundError
      ("Strategy " ++ toString strategy_id ++ " not found"))

/-- One recommendation dict of `_generate_recommendations` (priorities are
stored as their `.value` strings). -/
structure Recommendation where
  id : String
  title : String
  priority : String
  summary : String
  impact : String
  current_state : String
  target_state : String
deriving DecidableEq, Repr

/-- The SEO recommendation template (emitted when `scores["seo"] < 80`). -/
def seoRecommendation (scores : ScoresDict) : Recommendation :=
  { id := "seo-optimization", title := "Enhance SEO Performance",
    priority := Priority.HIGH.value,
    summary := "Implement technical SEO improvements to boost search visibility",
    impact := "Increase organic traffic by 30-50%",
    current_state := "Current SEO score: " ++ toString scores.seo ++ "/100",
    target_state := "Target SEO score: 85+/100" }

/-- The content recommendation template (emitted when `scores["content"] < 80`). -/
def contentRecommendation (scores : ScoresDict) : Recommendation :=
  { id := "content-strategy", title := "Content Strategy Enhancement",
    priority := Priority.HIGH.value,
    summary := "Develop comprehensive content that addresses user needs",
    impact := "Improve engagement and reduce bounce rate",
    current_state := "Current content score: " ++ toString scores.content ++ "/100",
    target_state := "Target content score: 80+/100" }

/-- The mobile recommendation template (emitted when `scores["mobile"] < 70`). -/
def mobileRecommendation (scores : ScoresDict) : Recommendation :=
  { id := "mobile-optimization", title := "Mobile Experience Optimization",
    priority := Priority.MEDIUM.value,
    summary := "Optimize for mobile users who make up 60%+ of traffic",
    impact := "Capture more mobile conversions",
    current_state := "Current mobile score: " ++ toString scores.mobile ++ "/100",
    target_state := "Target mobile score: 90+/100" }

/-- The speed recommendation template (emitted when `scores["speed"] < 70`). -/
def speedRecommendation (scores : ScoresDict) : Recommendation :=
  { id := "speed-improvement", title := "Page Speed Improvement",
    priority := Priority.MEDIUM.value,
    summary := "Reduce load times for better user experience",
    impact := "Every 1s improvement = 7% more conversions",
    current_state := "Current speed score: " ++ toString scores.speed ++ "/100",
    target_state := "Target speed score: 85+/100" }

/-- The social recommendation template (emitted when `scores["social"] < 60`). -/
def socialRecommendation (_scores : ScoresDict) : Recommendation :=
  { id := "social-presence", title := "Build Social Presence",
    priority := Priority.LOW.value,
    summary := "Strengthen social media integration and presence",
    impact := "Increase brand awareness and referral traffic",
    current_state := "Limited social integration",
    target_state := "Active social presence with website integration" }

/-- strategy_service.py `StrategyService._generate_recommendations`: the
five per-category templates, appended in source order when the category's
sub-score is below its threshold (80 for SEO and content, 70 for mobile
and speed, 60 for social).  A completed analysis stores all five keys, so
the `scores.get(…, 100)` defaults never fire. -/
def _generate_recommendations (scores : ScoresDict) : List Recommendation :=
  (if scores.seo < 80 then [seoRecommendation scores] else [])
  ++ (if scores.content < 80 then [contentRecommendation scores] else [])
  ++ (if scores.mobile < 70 then [mobileRecommendation scores] else [])
  ++ (if scores.speed < 70 then [speedRecommendation scores] else [])
  ++ (if scores.social < 60 then [socialRecommendation scores] else [])

/-- Python attribute lookup `Effort.<name>` on the enum class of
models/strategy.py, whose members are LOW, MEDIUM and HIGH; any other
name raises `AttributeError`. -/
def effortAttr (name : String) : Except String Effort :=
  match name with
  | "LOW" => Except.ok Effort.LOW
  | "MEDIUM" => Except.ok Effort.MEDIUM
  | "HIGH" => Except.ok Effort.HIGH
  | _ => Except.error ("type object Effort has no attribute " ++ name)

/-- One `ActionItem(…)` constructor call of `_generate_action_items`, with
the outcome of its `Effort.<name>` attribute lookup recorded in `effort`
(evaluated when the constructor call is reached).  `due_date` is
`date.today() + timedelta(days=k)`, with dates counted in days. -/
structure ActionItemT where
  title : String
  description : String
  priority : Priority
  effort : Except String Effort
  category : String
  due_date : Nat
deriving Repr

/-- A successfully constructed action-item row. -/
structure ActionItemRec where
  title : String
  description : String
  priority : Priority
  effort : Effort
  category : String
  due_date : Nat
deriving DecidableEq, Repr

/-- The three SEO action-item constructor calls (`scores["seo"] < 80`
branch); the first names `Effort.SMALL`, which is not a member. -/
def seo_action_templates (today : Nat) : List ActionItemT :=
  [{ title := "Add missing meta descriptions",
     description := "Ensure all pages have unique, compelling meta descriptions",
     priority := Priority.HIGH, effort := effortAttr "SMALL",
     category := "SEO", due_date := today + 7 },
   { title := "Optimize image alt texts",
     description := "Add descriptive alt text to all images",
     priority := Priority.MEDIUM, effort := effortAttr "SMALL",
     category := "SEO", due_date := today + 14 },
   { title := "Implement structured data",
     description := "Add schema.org markup for better search results",
     priority := Priority.MEDIUM, effort := effortAttr "MEDIUM",
     category := "SEO", due_date := today + 30 }]

/-- The two content action-item constructor calls (`scores["content"] < 80`
branch); the second names `Effort.LARGE`, which is not a member. -/
def content_action_templates (today : Nat) : List ActionItemT :=
  [{ title := "Expand homepage content",
     description := "Add more detailed content about services and value proposition",
     priority := Priority.HIGH, effort := effortAttr "MEDIUM",
     category := "Content", due_date := today + 14 },
   { title := "Create blog content strategy",
     description := "Plan 4 blog posts for the next month",
     priority := Priority.MEDIUM, effort := effortAttr "LARGE",
     category := "Content", due_date := today + 21 }]

/-- The two mobile action-item constructor calls (`scores["mobile"] < 70`
branch); the first names `Effort.SMALL`, which is not a member. -/
def mobile_action_templates (today : Nat) : List ActionItemT :=
  [{ title := "Add viewport meta tag",
     description := "Ensure proper mobile viewport configuration",
     priority := Priority.HIGH, effort := effortAttr "SMALL",
     category := "Mobile", due_date := today + 3 },
   { title := "Test mobile responsiveness",
     description := "Review and fix mobile layout issues",
     priority := Priority.MEDIUM, effort := effortAttr "MEDIUM",
     category := "Mobile", due_date := today + 14 }]

/-- The action-item constructor calls `_generate_action_items` reaches,
in source order: only the SEO (< 80), content (< 80) and mobile (< 70)
branches exist — there is no speed or social action-item template. -/
def action_item_templates (scores : ScoresDict) (today : Nat) : List ActionItemT :=
  (if scores.seo < 80 then seo_action_templates today else [])
  ++ (if scores.content < 80 then content_action_templates today else [])
  ++ (if scores.mobile < 70 then mobile_action_templates today else [])

/-- Evaluating one constructor call: an `Effort` lookup failure aborts
with that `AttributeError`. -/
def resolveTemplate (t : ActionItemT) : Except String ActionItemRec :=
  match t.effort with
  | .ok e => Except.ok
      { title := t.title, description := t.description, priority := t.priority,
        effort := e, category := t.category, due_date := t.due_date }
  | .error msg => Except.error msg

/-- Evaluate the constructor calls left to right; the first failing
`Effort` attribute lookup aborts the whole routine. -/
def resolveTemplates : List ActionItemT → Except String (List ActionItemRec)
  | [] => Except.ok []
  | t :: ts =>
    match resolveTemplate t with
    | .error e => Except.error e
    | .ok r =>
      match resolveTemplates ts with
      | .error e => Except.error e
      | .ok rs => Except.ok (r :: rs)

/-- strategy_service.py `StrategyService._generate_action_items`: the
constructor calls are evaluated left to right and the first failing
`Effort` attribute lookup raises out of the whole routine (nothing is
committed); when no branch fires the routine commits an empty batch. -/
def _generate_action_items (scores : ScoresDict) (today : Nat) :
    Except String (List ActionItemRec) :=
  resolveTemplates (action_item_templates scores today)

/-! ## Claim theorems -/

/-- Claim C2: `send_message` (store user message, generate the reply, store
it, run the advancement heuristic) never assigns the conversation's
`ring_phase` — the stored phase after the operation equals the phase
before it for every input, in particular also when the heuristic reports
`should_advance = true` — while the explicit `update_ring_phase` operation
is what sets the stored phase. -/
theorem quento_C2_ring_phase_frame (conversation : Conversation) (content : String)
    (attachments : Option (List String)) (llmResult : Except String String)
    (now : Nat) (p : RingPhase) :
    (ChatService.send_message conversation content attachments llmResult now).1.ring_phase
      = conversation.ring_phase
    ∧ ((ChatService.send_message conversation content attachments llmResult now).2).map
        (fun r => r.session_update.ring_phase)
      = ((ChatService.send_message conversation content attachments llmResult now).2).map
        (fun _ => conversation.ring_phase)
    ∧ (ChatService.update_ring_phase conversation p now).ring_phase = p := by
  refine ⟨?_, ?_, rfl⟩ <;>
    (simp only [ChatService.send_message]
     split <;> simp [ChatService.add_message, Except.map])

/-- Claim C4 (code bug): `_run_analysis` opens with
`from app.db.database import async_session_maker`, but db/database.py
defines `async_session_factory`, not `async_session_maker`; the import
raises before the `try` block, so the background run never touches the
row: the status stays as created (PENDING), no progress checkpoint is
committed, and neither COMPLETED nor FAILED nor an `error_message` is
ever reached.  Had the import succeeded, the body `_run_analysis_body`
does satisfy the claim: the committed progress trace is `[10]` on a fetch
failure (ending FAILED with the exception text recorded) and
`[10, 20, 40, 60, 80, 90, 100]` on success (ending COMPLETED). -/
theorem quento_C4_run_analysis_import_bug (analysis : AnalysisRow)
    (fetch_result : Except String WebsiteData) (msg : String)
    (data : WebsiteData) (now : Nat) :
    import_from_database "async_session_maker"
      = Except.error "cannot import name async_session_maker from app.db.database"
    ∧ _run_analysis analysis fetch_result now = (analysis, [])
    ∧ (_run_analysis analysis fetch_result now).1.status = analysis.status
    ∧ (_run_analysis_body analysis (Except.error msg) now).1.status = AnalysisStatus.FAILED
    ∧ (_run_analysis_body analysis (Except.error msg) now).1.error_message = some msg
    ∧ (_run_analysis_body analysis (Except.error msg) now).2 = [10]
    ∧ (_run_analysis_body analysis (Except.ok data) now).1.status = AnalysisStatus.COMPLETED
    ∧ (_run_analysis_body analysis (Except.ok data) now).1.progress = 100
    ∧ (_run_analysis_body analysis (Except.ok data) now).2 = [10, 20, 40, 60, 80, 90, 100] :=
  ⟨rfl, rfl, rfl, rfl, rfl, rfl, rfl, rfl, rfl⟩

/-- Claim C5 (code bug): the claim — any exception during the model
invocation returns the phase-keyed canned sentence and no error reaches
the caller — is the intent of the `try`/`except` and the fallback table,
and the guarded part (`generate_response_body`) satisfies it: on an
erroring oracle it returns the sentence keyed to the current phase, one
of exactly five pairwise-distinct sentences.  But `_build_messages`
evaluates `conversation.business_context` before the `try` and the
`Conversation` model declares no such attribute, so every
`generate_response` call raises `AttributeError` first: the model
invocation and the fallback are unreachable, and the error propagates to
the caller for every conversation, message and oracle outcome. -/
theorem quento_C5_fallback_unreachable (conversation : Conversation) (u e : String)
    (llmResult : Except String String) :
    conversationModelAttrs.contains "business_context" = false
    ∧ AIService.generate_response conversation u llmResult
      = Except.error "Conversation object has no attribute business_context"
    ∧ AIService.generate_response_body conversation u (Except.error e)
      = AIService._get_fallback_response conversation.ring_phase e
    ∧ AIService._get_fallback_response conversation.ring_phase e
        ∈ phase_order.map (fun p => AIService._get_fallback_response p e)
    ∧ (phase_order.map (fun p => AIService._get_fallback_response p e)).Nodup := by
  refine ⟨by decide, generate_response_always_raises conversation u llmResult,
    rfl, ?_, ?_⟩
  · cases conversation.ring_phase <;>
      simp [phase_order, AIService._get_fallback_response]
  · simp only [phase_order, List.map, AIService._get_fallback_response]
    decide

/-- Claim C9 (code bug): with a request body, `data.title` raises
`AttributeError` (`ConversationCreate` declares only `initial_context`);
without one, the `Conversation(…, business_context=…)` constructor call
raises `TypeError` (the model declares no `business_context` attribute) —
so neither path ever creates a conversation or a welcome message.  The
intended row, `create_conversation_record`, does satisfy the claim:
`ring_phase = CORE` and an assistant welcome message in its message
list. -/
theorem quento_C9_create_conversation_bug (user_id fid now : Nat)
    (d : ConversationCreate) (title : String) (bc : Option String) (w : String) :
    conversationCreateFields.contains "title" = false
    ∧ conversationModelAttrs.contains "business_context" = false
    ∧ ChatService.create_conversation user_id (some d) fid now
      = Except.error "ConversationCreate object has no attribute title"
    ∧ ChatService.create_conversation user_id none fid now
      = Except.error "business_context is an invalid keyword argument for Conversation"
    ∧ (create_conversation_record user_id title bc w fid now).ring_phase
      = RingPhase.CORE
    ∧ ∃ m ∈ (create_conversation_record user_id title bc w fid now).messages,
        m.role = MessageRole.ASSISTANT := by
  refine ⟨by decide, by decide, by rfl, by rfl, rfl, ?_⟩
  exact ⟨_, List.mem_cons_self _ _, rfl⟩

/-- Claim C10: `_detect_intent` only ever returns one of the six values
concern, disagreement, agreement, request, question, statement; the two
remaining declared `UserIntent` members, CLARIFICATION and OFF_TOPIC, are
returned for no input. -/
theorem quento_C10_intent_range (message : String) :
    _detect_intent message ∈
      [UserIntent.CONCERN, UserIntent.DISAGREEMENT, UserIntent.AGREEMENT,
       UserIntent.REQUEST, UserIntent.QUESTION, UserIntent.STATEMENT]
    ∧ _detect_intent message ≠ UserIntent.CLARIFICATION
    ∧ _detect_intent message ≠ UserIntent.OFF_TOPIC := by
  unfold _detect_intent
  split_ifs <;> simp

/-- Claim C6: `_detect_intent` evaluates the pattern families in the fixed
priority order concern > disagreement > agreement > request > question and
returns the first category with a matching pattern, defaulting to
statement; in particular a message matching both a concern pattern and a
question pattern is classified as concern. -/
theorem quento_C6_intent_priority (message : String) :
    (patsMatch concern_patterns message = true →
      _detect_intent message = UserIntent.CONCERN)
    ∧ (patsMatch concern_patterns message = false →
        patsMatch disagreement_patterns message = true →
        _detect_intent message = UserIntent.DISAGREEMENT)
    ∧ (patsMatch concern_patterns message = false →
        patsMatch disagreement_patterns message = false →
        patsMatch agreement_patterns message = true →
        _detect_intent message = UserIntent.AGREEMENT)
    ∧ (patsMatch concern_patterns message = false →
        patsMatch disagreement_patterns message = false →
        patsMatch agreement_patterns message = false →
        patsMatch request_patterns message = true →
        _detect_intent message = UserIntent.REQUEST)
    ∧ (patsMatch concern_patterns message = false →
        patsMatch disagreement_patterns message = false →
        patsMatch agreement_patterns message = false →
        patsMatch request_patterns message = false →
        patsMatch question_patterns message = true →
        _detect_intent message = UserIntent.QUESTION)
    ∧ (patsMatch concern_patterns message = false →
        patsMatch disagreement_patterns message = false →
        patsMatch agreement_patterns message = false →
        patsMatch request_patterns message = false →
        patsMatch question_patterns message = false →
        _detect_intent message = UserIntent.STATEMENT)
    ∧ (patsMatch concern_patterns message = true →
        patsMatch question_patterns message = true →
        _detect_intent message = UserIntent.CONCERN) := by
  unfold _detect_intent
  refine ⟨fun h1 => by simp [h1], fun h1 h2 => by simp [h1, h2],
    fun h1 h2 h3 => by simp [h1, h2, h3],
    fun h1 h2 h3 h4 => by simp [h1, h2, h3, h4],
    fun h1 h2 h3 h4 h5 => by simp [h1, h2, h3, h4, h5],
    fun h1 h2 h3 h4 h5 => by simp [h1, h2, h3, h4, h5],
    fun h1 _ => by simp [h1]⟩

/-- Witness for C6: "is this a problem?" matches a concern pattern
("problem") and question patterns (starts with "is", ends with a question
mark), and is classified as concern. -/
theorem quento_C6_intent_priority_witness :
    patsMatch concern_patterns "is this a problem?" = true
    ∧ patsMatch question_patterns "is this a problem?" = true
    ∧ _detect_intent "is this a problem?" = UserIntent.CONCERN := by
  refine ⟨by decide, by decide, ?_⟩
  exact (quento_C6_intent_priority "is this a problem?").2.2.2.2.2.2
    (by decide) (by decide)

/-- Claim C1: for every conversation in one of the five phases,
`analyze_for_phase_advancement` (a) uses the minimum exchange counts
4 (Core), 3 (Discover), 3 (Plan), 4 (Execute), 3 (Optimize) and the
keyword-coverage thresholds 3 (Core) and 2 (every other phase); (b)
returns `should_advance = false` whenever the USER-message count is below
the phase minimum, regardless of content; and (c) returns
`should_advance = true` whenever the exchange count meets the minimum and
the number of distinct phase keywords found in the concatenated lowercase
conversation text plus the latest exchange meets the coverage threshold,
with confidence `min 0.9 (0.5 + ratio · 0.4)` for the match ratio
covered/total — in particular capped at 0.9. -/
theorem quento_C1_phase_advancement (conversation : Conversation) (u a : String) :
    ((criteria RingPhase.CORE).min_exchanges = 4
      ∧ (criteria RingPhase.DISCOVER).min_exchanges = 3
      ∧ (criteria RingPhase.PLAN).min_exchanges = 3
      ∧ (criteria RingPhase.EXECUTE).min_exchanges = 4
      ∧ (criteria RingPhase.OPTIMIZE).min_exchanges = 3
      ∧ (criteria RingPhase.CORE).sufficient_coverage = 3
      ∧ (criteria RingPhase.DISCOVER).sufficient_coverage = 2
      ∧ (criteria RingPhase.PLAN).sufficient_coverage = 2
      ∧ (criteria RingPhase.EXECUTE).sufficient_coverage = 2
      ∧ (criteria RingPhase.OPTIMIZE).sufficient_coverage = 2)
    ∧ (exchange_count conversation.messages
          < (criteria conversation.ring_phase).min_exchanges →
        (analyze_for_phase_advancement conversation (u, a)).should_advance = false)
    ∧ ((criteria conversation.ring_phase).min_exchanges
          ≤ exchange_count conversation.messages →
        (criteria conversation.ring_phase).sufficient_coverage
          ≤ covered_signals (criteria conversation.ring_phase)
              (all_content conversation.messages u a) →
        (analyze_for_phase_advancement conversation (u, a)).should_advance = true
        ∧ (analyze_for_phase_advancement conversation (u, a)).confidence
          = min (9/10 : ℚ)
              (1/2 + ((covered_signals (criteria conversation.ring_phase)
                    (all_content conversation.messages u a) : ℚ)
                  / ((criteria conversation.ring_phase).key_signals.length : ℚ)) * (2/5))
        ∧ (analyze_for_phase_advancement conversation (u, a)).confidence ≤ 9/10) := by
  refine ⟨⟨rfl, rfl, rfl, rfl, rfl, rfl, rfl, rfl, rfl, rfl⟩, ?_, ?_⟩
  · intro h
    simp only [analyze_for_phase_advancement]
    rw [if_pos h]
  · intro h1 h2
    simp only [analyze_for_phase_advancement]
    rw [if_neg (Nat.not_lt.mpr h1), if_pos h2]
    exact ⟨rfl, rfl, min_le_left _ _⟩

/-- A CORE-phase conversation with a single user message (below the
minimum of four exchanges). -/
def convBelowMin : Conversation :=
  { id := 1, user_id := 1, title := "t", ring_phase := RingPhase.CORE,
    status := ConversationStatus.ACTIVE, business_context := none,
    messages := [{ role := MessageRole.USER, content := "hello",
                   metadata := none, created_at := 0 }],
    updated_at := 0 }

/-- A DISCOVER-phase conversation with three user messages whose text
covers two key signals ("competitor", "seo"). -/
def convCovered : Conversation :=
  { id := 2, user_id := 1, title := "t", ring_phase := RingPhase.DISCOVER,
    status := ConversationStatus.ACTIVE, business_context := none,
    messages := [{ role := MessageRole.USER, content := "our competitor",
                   metadata := none, created_at := 0 },
                 { role := MessageRole.ASSISTANT, content := "ok",
                   metadata := none, created_at := 1 },
                 { role := MessageRole.USER, content := "seo",
                   metadata := none, created_at := 2 },
                 { role := MessageRole.USER, content := "x",
                   metadata := none, created_at := 3 }],
    updated_at := 0 }

/-- Witness for C1: with one exchange in CORE the heuristic refuses to
advance; with three exchanges covering two DISCOVER signals it advances. -/
theorem quento_C1_phase_advancement_witness :
    (analyze_for_phase_advancement convBelowMin ("hi", "hey")).should_advance = false
    ∧ (analyze_for_phase_advancement convCovered ("a", "b")).should_advance = true := by
  constructor
  · exact (quento_C1_phase_advancement convBelowMin "hi" "hey").2.1 (by decide)
  · exact ((quento_C1_phase_advancement convCovered "a" "b").2.2
      (by decide) (by decide)).1

/-- The number of SEO issues carrying a given severity. -/
def countSeverity (issues : List SEOIssue) (s : Severity) : Nat :=
  (issues.filter (fun i => i.severity == s)).length

/-- `countSeverity` on a cons. -/
lemma countSeverity_cons (i : SEOIssue) (t : List SEOIssue) (s : Severity) :
    countSeverity (i :: t) s
      = (if i.severity = s then 1 else 0) + countSeverity t s := by
  simp only [countSeverity, List.filter_cons, beq_iff_eq]
  split <;> simp [Nat.add_comm]

/-- The SEO deduction loop equals a single subtraction of
20·high + 10·medium + 5·low. -/
lemma seo_foldl_eq (issues : List SEOIssue) (c : Int) :
    issues.foldl (fun s i => s - severityPenalty i.severity) c
      = c - (20 * (countSeverity issues Severity.high : Int)
             + 10 * (countSeverity issues Severity.medium : Int)
             + 5 * (countSeverity issues Severity.low : Int)) := by
  induction issues generalizing c with
  | nil => simp [countSeverity]
  | cons i t ih =>
    rw [List.foldl_cons, ih,
      countSeverity_cons i t Severity.high,
      countSeverity_cons i t Severity.medium,
      countSeverity_cons i t Severity.low]
    cases h : i.severity <;> simp [severityPenalty] <;> ring

/-- Claim C3: the five sub-scores are computed exactly as
content = max(0, 100 − 15·issues), seo = max(0, 100 − (20·high + 10·medium
+ 5·low)), mobile = 80 iff the viewport meta tag is present else 40,
speed = 70 always, social = 60 iff social data was produced else 40; and
the stored `overall_score` is the floor average of the five
(`sum // 5`). -/
theorem quento_C3_score_arithmetic (data : WebsiteData) (social : Option SocialData)
    (analysis : AnalysisRow) (now : Nat) :
    (_calculate_scores (_analyze_content data) (_analyze_seo data) social).content
      = max 0 (100 - 15 * ((_analyze_content data).issues.length : Int))
    ∧ (_calculate_scores (_analyze_content data) (_analyze_seo data) social).seo
      = max 0 (100 - (20 * (countSeverity (_analyze_seo data).issues Severity.high : Int)
          + 10 * (countSeverity (_analyze_seo data).issues Severity.medium : Int)
          + 5 * (countSeverity (_analyze_seo data).issues Severity.low : Int)))
    ∧ (_calculate_scores (_analyze_content data) (_analyze_seo data) social).mobile
      = (if data.has_viewport then 80 else 40)
    ∧ (_calculate_scores (_analyze_content data) (_analyze_seo data) social).speed = 70
    ∧ (_calculate_scores (_analyze_content data) (_analyze_seo data) social).social
      = (if social.isSome then 60 else 40)
    ∧ ((_run_analysis_body analysis (Except.ok data) now).1.results).map
        (fun r => r.overall_score)
      = ((_run_analysis_body analysis (Except.ok data) now).1.results).map
        (fun r => Int.fdiv (r.scores.seo + r.scores.content + r.scores.mobile
          + r.scores.speed + r.scores.social) 5) := by
  refine ⟨?_, ?_, rfl, rfl, rfl, rfl⟩
  · simp only [_calculate_scores]
    omega
  · simp only [_calculate_scores, seo_foldl_eq]
    omega

/-- Membership in a conditional singleton. -/
lemma mem_ite_singleton {α : Type} (x a : α) (c : Prop) [Decidable c] :
    (x ∈ (if c then [a] else [])) ↔ c ∧ x = a := by
  split <;> simp_all

/-- The SEO recommendation is emitted iff `scores.seo < 80`. -/
lemma seo_rec_iff (scores : ScoresDict) :
    seoRecommendation scores ∈ _generate_recommendations scores ↔ scores.seo < 80 := by
  unfold _generate_recommendations
  simp only [List.mem_append, mem_ite_singleton]
  constructor
  · rintro ((((⟨h, -⟩ | ⟨-, he⟩) | ⟨-, he⟩) | ⟨-, he⟩) | ⟨-, he⟩)
    · exact h
    all_goals
      have hid := congrArg Recommendation.id he
      simp [seoRecommendation, contentRecommendation, mobileRecommendation,
        speedRecommendation, socialRecommendation] at hid
  · intro h
    exact Or.inl (Or.inl (Or.inl (Or.inl ⟨h, trivial⟩)))

/-- The content recommendation is emitted iff `scores.content < 80`. -/
lemma content_rec_iff (scores : ScoresDict) :
    contentRecommendation scores ∈ _generate_recommendations scores
      ↔ scores.content < 80 := by
  unfold _generate_recommendations
  simp only [List.mem_append, mem_ite_singleton]
  constructor
  · rintro ((((⟨-, he⟩ | ⟨h, -⟩) | ⟨-, he⟩) | ⟨-, he⟩) | ⟨-, he⟩) <;>
    first
    | exact h
    | (have hid := congrArg Recommendation.id he
       simp [seoRecommendation, contentRecommendation, mobileRecommendation,
         speedRecommendation, socialRecommendation] at hid)
  · intro h
    exact Or.inl (Or.inl (Or.inl (Or.inr ⟨h, trivial⟩)))

/-- The mobile recommendation is emitted iff `scores.mobile < 70`. -/
lemma mobile_rec_iff (scores : ScoresDict) :
    mobileRecommendation scores ∈ _generate_recommendations scores
      ↔ scores.mobile < 70 := by
  unfold _generate_recommendations
  simp only [List.mem_append, mem_ite_singleton]
  constructor
  · rintro ((((⟨-, he⟩ | ⟨-, he⟩) | ⟨h, -⟩) | ⟨-, he⟩) | ⟨-, he⟩) <;>
    first
    | exact h
    | (have hid := congrArg Recommendation.id he
       simp [seoRecommendation, contentRecommendation, mobileRecommendation,
         speedRecommendation, socialRecommendation] at hid)
  · intro h
    exact Or.inl (Or.inl (Or.inr ⟨h, trivial⟩))

/-- The speed recommendation is emitted iff `scores.speed < 70`. -/
lemma speed_rec_iff (scores : ScoresDict) :
    speedRecommendation scores ∈ _generate_recommendations scores
      ↔ scores.speed < 70 := by
  unfold _generate_recommendations
  simp only [List.mem_append, mem_ite_singleton]
  constructor
  · rintro ((((⟨-, he⟩ | ⟨-, he⟩) | ⟨-, he⟩) | ⟨h, -⟩) | ⟨-, he⟩) <;>
    first
    | exact h
    | (have hid := congrArg Recommendation.id he
       simp [seoRecommendation, contentRecommendation, mobileRecommendation,
         speedRecommendation, socialRecommendation] at hid)
  · intro h
    exact Or.inl (Or.inr ⟨h, trivial⟩)

/-- The social recommendation is emitted iff `scores.social < 60`. -/
lemma social_rec_iff (scores : ScoresDict) :
    socialRecommendation scores ∈ _generate_recommendations scores
      ↔ scores.social < 60 := by
  unfold _generate_recommendations
  simp only [List.mem_append, mem_ite_singleton]
  constructor
  · rintro ((((⟨-, he⟩ | ⟨-, he⟩) | ⟨-, he⟩) | ⟨-, he⟩) | ⟨h, -⟩) <;>
    first
    | exact h
    | (have hid := congrArg Recommendation.id he
       simp [seoRecommendation, contentRecommendation, mobileRecommendation,
         speedRecommendation, socialRecommendation] at hid)
  · intro h
    exact Or.inr ⟨h, trivial⟩

/-- When any of the three templated categories is below its threshold,
action-item generation aborts with an `Effort` AttributeError. -/
lemma action_items_error (scores : ScoresDict) (today : Nat)
    (h : scores.seo < 80 ∨ scores.content < 80 ∨ scores.mobile < 70) :
    ∃ e, _generate_action_items scores today = Except.error e := by
  by_cases h1 : scores.seo < 80
  · refine ⟨"type object Effort has no attribute SMALL", ?_⟩
    simp [_generate_action_items, action_item_templates, h1,
      seo_action_templates, resolveTemplates, resolveTemplate, effortAttr]
  · by_cases h2 : scores.content < 80
    · refine ⟨"type object Effort has no attribute LARGE", ?_⟩
      simp [_generate_action_items, action_item_templates, h1, h2,
        content_action_templates, resolveTemplates, resolveTemplate, effortAttr]
    · have h3 : scores.mobile < 70 := by tauto
      refine ⟨"type object Effort has no attribute SMALL", ?_⟩
      simp [_generate_action_items, action_item_templates, h1, h2, h3,
        mobile_action_templates, resolveTemplates, resolveTemplate, effortAttr]

/-- When no templated category is below its threshold, no action item is
generated at all. -/
lemma action_items_empty (scores : ScoresDict) (today : Nat)
    (h : ¬(scores.seo < 80 ∨ scores.content < 80 ∨ scores.mobile < 70)) :
    _generate_action_items scores today = Except.ok [] := by
  push_neg at h
  simp [_generate_action_items, action_item_templates,
    Nat.not_lt.mpr, not_lt.mpr h.1, not_lt.mpr h.2.1, not_lt.mpr h.2.2,
    resolveTemplates]

/-- Every due date in the action-item templates is the creation date plus
3, 7, 14, 21 or 30 days. -/
lemma due_date_offsets (scores : ScoresDict) (today : Nat) :
    ∀ t ∈ action_item_templates scores today,
      t.due_date = today + 3 ∨ t.due_date = today + 7 ∨ t.due_date = today + 14
        ∨ t.due_date = today + 21 ∨ t.due_date = today + 30 := by
  intro t ht
  unfold action_item_templates at ht
  simp only [List.mem_append] at ht
  have : t ∈ seo_action_templates today ∨ t ∈ content_action_templates today
      ∨ t ∈ mobile_action_templates today := by
    rcases ht with (ht | ht) | ht
    · left; revert ht; split <;> simp_all
    · right; left; revert ht; split <;> simp_all
    · right; right; revert ht; split <;> simp_all
  rcases this with ht | ht | ht <;>
    (simp [seo_action_templates, content_action_templates,
      mobile_action_templates] at ht) <;>
    rcases ht with h | h | h <;> (try subst h) <;> simp

/-- Claim C7 (amended): a recommendation is generated for a category
exactly when the category's sub-score is below its threshold (80 for SEO
and content, 70 for mobile and speed, 60 for social); action-item
templates exist only for SEO (< 80), content (< 80) and mobile (< 70) —
none for speed or social — and every due date in them is the creation
date plus 3, 7, 14, 21 or 30 days; but because the templates name the
undefined `Effort` members SMALL and LARGE, generation raises
`AttributeError` whenever any templated category is below its threshold,
and otherwise produces no action items. -/
theorem quento_C7_strategy_templates (scores : ScoresDict) (today : Nat) :
    (seoRecommendation scores ∈ _generate_recommendations scores ↔ scores.seo < 80)
    ∧ (contentRecommendation scores ∈ _generate_recommendations scores
        ↔ scores.content < 80)
    ∧ (mobileRecommendation scores ∈ _generate_recommendations scores
        ↔ scores.mobile < 70)
    ∧ (speedRecommendation scores ∈ _generate_recommendations scores
        ↔ scores.speed < 70)
    ∧ (socialRecommendation scores ∈ _generate_recommendations scores
        ↔ scores.social < 60)
    ∧ (scores.seo < 80 ∨ scores.content < 80 ∨ scores.mobile < 70 →
        ∃ e, _generate_action_items scores today = Except.error e)
    ∧ (¬(scores.seo < 80 ∨ scores.content < 80 ∨ scores.mobile < 70) →
        _generate_action_items scores today = Except.ok [])
    ∧ (∀ t ∈ action_item_templates scores today,
        t.due_date = today + 3 ∨ t.due_date = today + 7 ∨ t.due_date = today + 14
          ∨ t.due_date = today + 21 ∨ t.due_date = today + 30) :=
  ⟨seo_rec_iff scores, content_rec_iff scores, mobile_rec_iff scores,
   speed_rec_iff scores, social_rec_iff scores,
   action_items_error scores today, action_items_empty scores today,
   due_date_offsets scores today⟩

/-- A completed analysis whose only below-threshold category is speed. -/
def scoresSpeedLow : ScoresDict :=
  { seo := 100, content := 100, mobile := 100, speed := 60, social := 100 }

/-- Counterexample for C7 as stated: with speed = 60 (below its threshold
70) the generator emits the speed recommendation but produces no action
item at all for any category — dated action items are not generated
"exactly when the sub-score is below its threshold". -/
theorem quento_C7_counterexample :
    scoresSpeedLow.speed < 70
    ∧ (_generate_recommendations scoresSpeedLow).map (fun r => r.id)
      = ["speed-improvement"]
    ∧ _generate_action_items scoresSpeedLow 0 = Except.ok [] := by
  refine ⟨by decide, by rfl, by rfl⟩

/-- A completed analysis with SEO below threshold. -/
def scoresSeoLow : ScoresDict :=
  { seo := 70, content := 100, mobile := 100, speed := 100, social := 100 }

/-- A completed analysis with every category at its threshold or above. -/
def scoresAllHigh : ScoresDict :=
  { seo := 90, content := 90, mobile := 90, speed := 90, social := 90 }

/-- Witness for C7: with SEO at 70 the SEO recommendation is present and
action-item generation raises; with every score at 90 no recommendation
or action item is produced. -/
theorem quento_C7_strategy_templates_witness :
    seoRecommendation scoresSeoLow ∈ _generate_recommendations scoresSeoLow
    ∧ (∃ e, _generate_action_items scoresSeoLow 0 = Except.error e)
    ∧ _generate_action_items scoresAllHigh 0 = Except.ok [] := by
  refine ⟨?_, ?_, ?_⟩
  · exact (quento_C7_strategy_templates scoresSeoLow 0).1.mpr (by decide)
  · exact (quento_C7_strategy_templates scoresSeoLow 0).2.2.2.2.2.1
      (Or.inl (by decide))
  · exact (quento_C7_strategy_templates scoresAllHigh 0).2.2.2.2.2.2.1 (by decide)

/-- Claim C8: for every authenticated user and every conversation,
analysis or strategy identifier owned only by other users, the fetch
operation returns the not-found error (never the forbidden /
authorization error), because each SELECT is scoped to the caller's user
id; and the outcome equals, value for value, the outcome on a database
holding no row with that identifier at all. -/
theorem quento_C8_cross_user_not_found (convs : List Conversation)
    (analyses : List AnalysisRow) (strategies : List StrategyRow)
    (uid cid aid sid : Nat)
    (hc : ∀ c ∈ convs, c.id = cid → c.user_id ≠ uid)
    (ha : ∀ x ∈ analyses, x.id = aid → x.user_id ≠ uid)
    (hs : ∀ s ∈ strategies, s.id = sid → s.user_id ≠ uid) :
    ChatService.get_conversation convs cid uid
      = Except.error (QuentoError.notFoundError
          ("Conversation " ++ toString cid ++ " not found"))
    ∧ ChatService.get_conversation convs cid uid
      = ChatService.get_conversation (convs.filter (fun c => c.id != cid)) cid uid
    ∧ AnalysisService.get_analysis analyses aid uid
      = Except.error (QuentoError.notFoundError
          ("Analysis " ++ toString aid ++ " not found"))
    ∧ AnalysisService.get_analysis analyses aid uid
      = AnalysisService.get_analysis (analyses.filter (fun x => x.id != aid)) aid uid
    ∧ StrategyService.get_strategy strategies sid uid
      = Except.error (QuentoError.notFoundError
          ("Strategy " ++ toString sid ++ " not found"))
    ∧ StrategyService.get_strategy strategies sid uid
      = StrategyService.get_strategy
          (strategies.filter (fun s => s.id != sid)) sid uid := by
  have fc : convs.find? (fun c => c.id == cid && c.user_id == uid) = none := by
    rw [List.find?_eq_none]
    intro c hcmem hp
    simp only [Bool.and_eq_true, beq_iff_eq] at hp
    exact hc c hcmem hp.1 hp.2
  have fc2 : (convs.filter (fun c => c.id != cid)).find?
      (fun c => c.id == cid && c.user_id == uid) = none := by
    rw [List.find?_eq_none]
    intro c hcmem hp
    simp only [Bool.and_eq_true, beq_iff_eq] at hp
    exact hc c (List.mem_of_mem_filter hcmem) hp.1 hp.2
  have fa : analyses.find? (fun x => x.id == aid && x.user_id == uid) = none := by
    rw [List.find?_eq_none]
    intro x hmem hp
    simp only [Bool.and_eq_true, beq_iff_eq] at hp
    exact ha x hmem hp.1 hp.2
  have fa2 : (analyses.filter (fun x => x.id != aid)).find?
      (fun x => x.id == aid && x.user_id == uid) = none := by
    rw [List.find?_eq_none]
    intro x hmem hp
    simp only [Bool.and_eq_true, beq_iff_eq] at hp
    exact ha x (List.mem_of_mem_filter hmem) hp.1 hp.2
  have fs : strategies.find? (fun s => s.id == sid && s.user_id == uid) = none := by
    rw [List.find?_eq_none]
    intro s hmem hp
    simp only [Bool.and_eq_true, beq_iff_eq] at hp
    exact hs s hmem hp.1 hp.2
  have fs2 : (strategies.filter (fun s => s.id != sid)).find?
      (fun s => s.id == sid && s.user_id == uid) = none := by
    rw [List.find?_eq_none]
    intro s hmem hp
    simp only [Bool.and_eq_true, beq_iff_eq] at hp
    exact hs s (List.mem_of_mem_filter hmem) hp.1 hp.2
  refine ⟨?_, ?_, ?_, ?_, ?_, ?_⟩ <;>
    simp [ChatService.get_conversation, AnalysisService.get_analysis,
      StrategyService.get_strategy, fc, fc2, fa, fa2, fs, fs2]

/-- A conversation row owned by user 2. -/
def convOfUser2 : Conversation :=
  { id := 1, user_id := 2, title := "t", ring_phase := RingPhase.CORE,
    status := ConversationStatus.ACTIVE, business_context := none,
    messages := [], updated_at := 0 }

/-- An analysis row owned by user 2. -/
def analysisOfUser2 : AnalysisRow :=
  { id := 1, user_id := 2, website_url := "https://example.com",
    status := AnalysisStatus.PENDING, progress := 0,
    include_competitors := false, include_social := false,
    results := none, error_message := none, completed_at := none }

/-- A strategy row owned by user 2. -/
def strategyOfUser2 : StrategyRow :=
  { id := 1, user_id := 2, analysis_id := none, title := "s",
    status := StrategyStatus.DRAFT }

/-- Witness for C8: user 3 fetching user 2's conversation, analysis and
strategy (each with identifier 1) gets the not-found error in all three
services. -/
theorem quento_C8_cross_user_not_found_witness :
    ChatService.get_conversation [convOfUser2] 1 3
      = Except.error (QuentoError.notFoundError
          ("Conversation " ++ toString 1 ++ " not found"))
    ∧ AnalysisService.get_analysis [analysisOfUser2] 1 3
      = Except.error (QuentoError.notFoundError
          ("Analysis " ++ toString 1 ++ " not found"))
    ∧ StrategyService.get_strategy [strategyOfUser2] 1 3
      = Except.error (QuentoError.notFoundError
          ("Strategy " ++ toString 1 ++ " not found")) := by
  have h := quento_C8_cross_user_not_found [convOfUser2] [analysisOfUser2]
    [strategyOfUser2] 3 1 1 1 (by decide) (by decide) (by decide)
  exact ⟨h.1, h.2.2.1, h.2.2.2.2.1⟩
